import Mathlib

/-!
Verification of the etcd backup job builder, `src/main.go`.

A shallow embedding of the three functions of `main.go`:

* `randomString`   : the hexadecimal name suffix,
* `createBackupPod`: the builder of the batch job description,
* `main`           : the driver (list nodes, build the job, submit it).

Go strings are Lean strings.  The Kubernetes API types are records holding the
fields that `main.go` sets.  The pseudo-random generator, seeded from the clock,
is a stream of bytes; the API client is a pair of functions answering the two
calls the driver makes.  A Go panic is an explicit result.
-/

namespace EtcdBackup

/-! ## `fmt.Sprintf("%x", b)` and string slicing -/

/-- The digit table of the `%x` verb (`ldigits` in package `fmt`). -/
def ldigits : List Char :=
  ['0', '1', '2', '3', '4', '5', '6', '7', '8', '9', 'a', 'b', 'c', 'd', 'e', 'f']

/-- One digit of the table; the index is a nibble, so it is always in range. -/
def hexDigit (d : Fin 16) : Char :=
  ldigits.get ⟨d.val, d.isLt⟩

/-- The two digits `%x` writes for one byte: high nibble, then low nibble. -/
def hexByte (c : Fin 256) : List Char :=
  [hexDigit ⟨c.val / 16, by omega⟩, hexDigit ⟨c.val % 16, by omega⟩]

/-- The rendering `fmt.Sprintf("%x", b)` of a byte slice. -/
def sprintfHex (b : List (Fin 256)) : String :=
  String.mk (b.flatMap hexByte)

/-- The slice expression `s[:hi]`: it panics (`none`) unless `0 ≤ hi ≤ len(s)`.
The strings sliced here are ASCII, so byte and character offsets coincide. -/
def sliceTo (s : String) (hi : Int) : Option String :=
  if 0 ≤ hi ∧ hi ≤ (s.length : Int) then some (s.take hi.toNat) else none

/-- The result of `make([]byte, n)` followed by `rand.Read(b)`: the first `n`
bytes of the stream the seeded generator delivers. -/
def randRead (rnd : Nat → Fin 256) (n : Nat) : List (Fin 256) :=
  (List.range n).map rnd

/-- The largest Go `int`, a 64-bit signed integer. -/
def maxInt : Int := 9223372036854775807

/-- The allocation limit of the Go runtime on 64-bit platforms (`maxAlloc`,
that is `1 << 48`).  A byte slice longer than this cannot be made. -/
def maxAlloc : Nat := 281474976710656

/-- The function `randomString` of `main.go`.  The call `make([]byte, length)`
panics with `makeslice: len out of range` when the length is negative or above
the allocation limit of the runtime.  A Go `int` lies between `-maxInt - 1` and
`maxInt`; every integer outside `0 .. maxAlloc` is answered by the panic, so no
string is returned for a value that no `int` holds.  Running out of memory below
the limit is a fatal error of the machine and is not part of the model. -/
def randomString (rnd : Nat → Fin 256) (length : Int) : Option String :=
  if length < 0 ∨ (maxAlloc : Int) < length then none
  else
    let b := randRead rnd length.toNat
    sliceTo (sprintfHex b) length

/-- A lower-case hexadecimal digit. -/
def isLowerHex (c : Char) : Bool :=
  ('0' ≤ c && c ≤ '9') || ('a' ≤ c && c ≤ 'f')

/-! ## The API records -/

structure ObjectMeta where
  Name : String
  Namespace : String
deriving DecidableEq, Repr

structure VolumeMount where
  Name : String
  MountPath : String
deriving DecidableEq, Repr

inductive PullPolicy where
  | PullAlways
  | PullNever
  | PullIfNotPresent
deriving DecidableEq, Repr

inductive RestartPolicy where
  | RestartPolicyAlways
  | RestartPolicyOnFailure
  | RestartPolicyNever
deriving DecidableEq, Repr

structure Container where
  Name : String
  Image : String
  ImagePullPolicy : PullPolicy
  Command : List String
  VolumeMounts : List VolumeMount
deriving DecidableEq, Repr

structure PersistentVolumeClaimVolumeSource where
  ClaimName : String
deriving DecidableEq, Repr

/-- A volume source; the pointer field is `none` when nil. -/
structure VolumeSource where
  PersistentVolumeClaim : Option PersistentVolumeClaimVolumeSource
deriving DecidableEq, Repr

structure Volume where
  Name : String
  VolumeSource : VolumeSource
deriving DecidableEq, Repr

/-- A pod specification.  The `map[string]string` node selector is the list of
its key/value entries. -/
structure PodSpec where
  Containers : List Container
  RestartPolicy : RestartPolicy
  Volumes : List Volume
  NodeSelector : List (String × String)
deriving DecidableEq, Repr

structure PodTemplateSpec where
  Spec : PodSpec
deriving DecidableEq, Repr

structure JobSpec where
  Template : PodTemplateSpec
deriving DecidableEq, Repr

structure Job where
  ObjectMeta : ObjectMeta
  Spec : JobSpec
deriving DecidableEq, Repr

/-! ## `createBackupPod` -/

/-- The function `createBackupPod` of `main.go`.  The only step that can fail
is the call `randomString(4)`. -/
def createBackupPod (rnd : Nat → Fin 256)
    (nodeName projectName imageURL pvcName : String) : Option Job :=
  let cmd := "oc debug node/" ++ nodeName ++ " -- chroot /host"
  let tempTarball := "/tmp/etcd_backup.tar.gz"
  let tempBackupDir := "/tmp/assets/backup"
  match randomString rnd 4 with
  | none => none
  | some randomUUID =>
    let backupCMD := cmd ++ " /usr/local/bin/cluster-backup.sh " ++ tempBackupDir
    let tarCMD := cmd ++ " tar czf " ++ tempTarball ++ " " ++ tempBackupDir
    let moveTarballCMD :=
      cmd ++ " cat " ++ tempTarball ++ " > /backups/backup_$(date +%Y-%m-%d_%H-%M_%Z).db.tgz"
    let cleanupCMD := cmd ++ " rm -rf " ++ tempBackupDir ++ " && " ++ cmd ++ " rm -f " ++ tempTarball
    some
      { ObjectMeta :=
          { Name := "etcd-backup-" ++ randomUUID
            Namespace := projectName }
        Spec :=
          { Template :=
              { Spec :=
                  { Containers :=
                      [ { Name := "etcd-backup-" ++ randomUUID
                          Image := imageURL
                          ImagePullPolicy := PullPolicy.PullIfNotPresent
                          Command :=
                            [ "/bin/bash",
                              "-c",
                              backupCMD ++ " && " ++ tarCMD ++ " && " ++ moveTarballCMD
                                ++ " && " ++ cleanupCMD ]
                          VolumeMounts :=
                            [ { Name := "etcd-backup-mount"
                                MountPath := "/backups" } ] } ]
                    RestartPolicy := RestartPolicy.RestartPolicyNever
                    Volumes :=
                      [ { Name := "etcd-backup-mount"
                          VolumeSource :=
                            { PersistentVolumeClaim := some { ClaimName := pvcName } } } ]
                    NodeSelector := [("node-role.kubernetes.io/master", "")] } } } }

/-! ## The driver `main` -/

/-- A Go `error` value, identified by its message. -/
abbrev Error := String

/-- A node record; `Name` is its `ObjectMeta.Name`. -/
structure Node where
  Name : String
deriving DecidableEq, Repr

structure NodeList where
  Items : List Node
deriving DecidableEq, Repr

/-- The client configuration built from the kubeconfig file. -/
structure Config where
  Host : String
deriving DecidableEq, Repr

/-- The two calls `main` makes through the client set:
`CoreV1().Nodes().List` with a label selector, and `BatchV1().Jobs(ns).Create`. -/
structure Clientset where
  listNodes : String → Except Error NodeList
  createJob : String → Job → Except Error Job

/-- Everything outside the program that one run depends on. -/
structure World where
  rnd : Nat → Fin 256
  BuildConfigFromFlags : String → String → Except Error Config
  NewForConfig : Config → Except Error Clientset

/-- The observable actions of a run, in program order. -/
inductive Event where
  | listNodes (labelSelector : String)
  | println (text : String)
  | createJob (ns : String) (job : Job)
deriving DecidableEq, Repr

/-- The value a run panics with. -/
inductive PanicValue where
  | error (err : Error)
  | nilDereference
  | indexOutOfRange (index length : Nat)
  | sliceBounds
deriving DecidableEq, Repr

/-- How a run of `main` ends. -/
inductive Outcome where
  | returned
  | panicked (v : PanicValue)
deriving DecidableEq, Repr

structure Run where
  trace : List Event
  outcome : Outcome
deriving DecidableEq, Repr

set_option linter.unusedVariables false in
/-- The function `main` of `main.go`.  The three flag variables are declared and
never read.  The error of `NewForConfig` is discarded, so a failure leaves a nil
client whose first use panics. -/
def main (ns label field : String) (w : World) : Run :=
  let imageURL := "registry.redhat.io/openshift4/ose-cli:v4.8"
  let backupProject := "ocp-etcd-backup"
  let pvcName := "etcd-backup-pvc"
  match w.BuildConfigFromFlags ""
      "/home/stratus/temp/go_practice/k8s_practice/auth/kubeconfig" with
  | .error err => ⟨[], .panicked (.error err)⟩
  | .ok config =>
    match w.NewForConfig config with
    | .error _ => ⟨[], .panicked .nilDereference⟩
    | .ok client =>
      match client.listNodes "node-role.kubernetes.io/master=" with
      | .error err =>
        ⟨[.listNodes "node-role.kubernetes.io/master=", .println err], .returned⟩
      | .ok nodes =>
        match nodes.Items with
        | [] =>
          ⟨[.listNodes "node-role.kubernetes.io/master="], .panicked (.indexOutOfRange 0 0)⟩
        | first :: _ =>
          let debug_node := first.Name
          match createBackupPod w.rnd debug_node backupProject imageURL pvcName with
          | none =>
            ⟨[.listNodes "node-role.kubernetes.io/master="], .panicked .sliceBounds⟩
          | some backupJob =>
            match client.createJob backupProject backupJob with
            | .error err1 =>
              ⟨[.listNodes "node-role.kubernetes.io/master=",
                .createJob backupProject backupJob], .panicked (.error err1)⟩
            | .ok _ =>
              ⟨[.listNodes "node-role.kubernetes.io/master=",
                .createJob backupProject backupJob], .returned⟩

/-! ## The pipeline as the specification words it -/

/-- The four-stage pipeline as the specification describes it, over an
invocation `D`, one temporary directory `dir`, one temporary archive `tarball`
and one destination file `target`: run the backup script into `dir`, tar `dir`
into `tarball`, stream `tarball` into `target`, remove `dir` and `tarball`. -/
def stagedPipeline (D dir tarball target : String) : String :=
  D ++ " /usr/local/bin/cluster-backup.sh " ++ dir
    ++ " && " ++ D ++ " tar czf " ++ tarball ++ " " ++ dir
    ++ " && " ++ D ++ " cat " ++ tarball ++ " > " ++ target
    ++ " && " ++ D ++ " rm -rf " ++ dir ++ " && " ++ D ++ " rm -f " ++ tarball

/-! ## Concrete runs -/

/-- A byte stream delivering `0xab` forever. -/
def sampleRnd : Nat → Fin 256 := fun _ => 171

/-- A client whose node listing fails. -/
def listFailsClient : Clientset where
  listNodes := fun _ => .error "nodes is forbidden"
  createJob := fun _ job => .ok job

/-- A client that finds no control-plane node: the listing succeeds with no item. -/
def noNodeClient : Clientset where
  listNodes := fun _ => .ok ⟨[]⟩
  createJob := fun _ job => .ok job

/-- A client that lists two nodes and rejects every job. -/
def createFailsClient : Clientset where
  listNodes := fun _ => .ok ⟨[⟨"master-0"⟩, ⟨"master-1"⟩]⟩
  createJob := fun _ _ => .error "jobs.batch is forbidden"

/-- A client that lists two nodes and accepts every job. -/
def acceptingClient : Clientset where
  listNodes := fun _ => .ok ⟨[⟨"master-0"⟩, ⟨"master-1"⟩]⟩
  createJob := fun _ job => .ok job

/-- The job `createBackupPod` builds for node `master-0` with the constants of
`main` when the random suffix is `abab`. -/
def sampleJob : Job :=
  { ObjectMeta := { Name := "etcd-backup-abab", Namespace := "ocp-etcd-backup" }
    Spec :=
      { Template :=
          { Spec :=
              { Containers :=
                  [ { Name := "etcd-backup-abab"
                      Image := "registry.redhat.io/openshift4/ose-cli:v4.8"
                      ImagePullPolicy := PullPolicy.PullIfNotPresent
                      Command :=
                        [ "/bin/bash", "-c",
                          "oc debug node/master-0 -- chroot /host /usr/local/bin/cluster-backup.sh /tmp/assets/backup && oc debug node/master-0 -- chroot /host tar czf /tmp/etcd_backup.tar.gz /tmp/assets/backup && oc debug node/master-0 -- chroot /host cat /tmp/etcd_backup.tar.gz > /backups/backup_$(date +%Y-%m-%d_%H-%M_%Z).db.tgz && oc debug node/master-0 -- chroot /host rm -rf /tmp/assets/backup && oc debug node/master-0 -- chroot /host rm -f /tmp/etcd_backup.tar.gz" ]
                      VolumeMounts := [ { Name := "etcd-backup-mount", MountPath := "/backups" } ] } ]
                RestartPolicy := RestartPolicy.RestartPolicyNever
                Volumes :=
                  [ { Name := "etcd-backup-mount"
                      VolumeSource :=
                        { PersistentVolumeClaim := some { ClaimName := "etcd-backup-pvc" } } } ]
                NodeSelector := [("node-role.kubernetes.io/master", "")] } } } }

/-- The world around a given client: the configuration is established. -/
def worldOf (client : Clientset) : World where
  rnd := sampleRnd
  BuildConfigFromFlags := fun _ _ => .ok ⟨"https://api.cluster:6443"⟩
  NewForConfig := fun _ => .ok client

/-! ## Lemmas on the hexadecimal rendering -/

theorem hexDigit_isLowerHex : ∀ d : Fin 16, isLowerHex (hexDigit d) = true := by
  decide

theorem flatMap_hexByte_length (b : List (Fin 256)) :
    (b.flatMap hexByte).length = 2 * b.length := by
  induction b with
  | nil => rfl
  | cons c t ih =>
    rw [List.flatMap_cons, List.length_append, ih, List.length_cons]
    show 2 + 2 * t.length = 2 * (t.length + 1)
    omega

theorem flatMap_hexByte_hex (b : List (Fin 256)) :
    ∀ c ∈ b.flatMap hexByte, isLowerHex c = true := by
  intro c hc
  rw [List.mem_flatMap] at hc
  obtain ⟨x, _, hx⟩ := hc
  simp only [hexByte, List.mem_cons, List.mem_singleton, List.not_mem_nil, or_false] at hx
  rcases hx with h | h <;> (rw [h]; exact hexDigit_isLowerHex _)

theorem randRead_length (rnd : Nat → Fin 256) (n : Nat) : (randRead rnd n).length = n := by
  simp [randRead]

theorem sprintfHex_length (b : List (Fin 256)) : (sprintfHex b).length = 2 * b.length :=
  flatMap_hexByte_length b

/-- A length that `make` accepts never makes `randomString` panic: the slice
bound is within the rendering, which is twice as long. -/
theorem randomString_eq (rnd : Nat → Fin 256) (n : Int) (hn : 0 ≤ n)
    (hmax : n ≤ (maxAlloc : Int)) :
    randomString rnd n = some ((sprintfHex (randRead rnd n.toNat)).take n.toNat) := by
  have hlen := sprintfHex_length (randRead rnd n.toNat)
  rw [randRead_length] at hlen
  unfold randomString sliceTo
  rw [if_neg (by omega)]
  simp only []
  rw [if_pos]
  rw [hlen]
  omega

theorem take_sprintfHex_length (b : List (Fin 256)) (k : Nat) (hk : k ≤ b.length) :
    ((sprintfHex b).take k).length = k := by
  have h : ((sprintfHex b).take k).length = min k (sprintfHex b).length := by
    rw [String.take_eq]
    exact List.length_take _ _
  rw [h, sprintfHex_length]
  omega

theorem take_sprintfHex_hex (b : List (Fin 256)) (k : Nat) :
    ∀ c ∈ ((sprintfHex b).take k).toList, isLowerHex c = true := by
  intro c hc
  rw [String.take_eq] at hc
  exact flatMap_hexByte_hex _ c (List.mem_of_mem_take hc)

/-- The suffix `createBackupPod` asks for: four lower-case hexadecimal digits. -/
theorem randomString_four (rnd : Nat → Fin 256) :
    ∃ u, randomString rnd 4 = some u ∧ u.length = 4 ∧
      ∀ c ∈ u.toList, isLowerHex c = true := by
  refine ⟨_, randomString_eq rnd 4 (by decide) (by decide), ?_, take_sprintfHex_hex _ _⟩
  exact take_sprintfHex_length _ 4 (by rw [randRead_length]; decide)

/-- The builder never fails. -/
theorem createBackupPod_total (rnd : Nat → Fin 256) (N P I C : String) :
    ∃ job, createBackupPod rnd N P I C = some job ∧ job.ObjectMeta.Namespace = P := by
  obtain ⟨u, hu, -⟩ := randomString_four rnd
  unfold createBackupPod
  rw [hu]
  exact ⟨_, rfl, rfl⟩

/-! ## The name suffix -/

/-- C2, as stated, fails: the largest `int` is a non-negative length, and for
it `make` panics, so `randomString` returns no string at all. -/
theorem randomString_maxInt_panics :
    (0 : Int) ≤ maxInt ∧ randomString sampleRnd maxInt = none ∧
      ¬ ∃ s, randomString sampleRnd maxInt = some s ∧ (s.length : Int) = maxInt := by
  have h : randomString sampleRnd maxInt = none := by decide
  refine ⟨by decide, h, ?_⟩
  rintro ⟨s, hs, -⟩
  rw [h] at hs
  exact Option.noConfusion hs

/-- C2, amended: for a requested length `n` with `0 ≤ n` that does not exceed
the allocation limit of the runtime, and any bytes delivered by the random
source, `randomString` returns a string of exactly `n` characters, all of them
lower-case hexadecimal digits; the rendering it truncates has `2 * n`
characters, so the slice `[:n]` is in range and does not panic. -/
theorem randomString_length_hex (rnd : Nat → Fin 256) (n : Int) (hn : 0 ≤ n)
    (hmax : n ≤ (maxAlloc : Int)) :
    ∃ s, randomString rnd n = some s ∧ (s.length : Int) = n ∧
      (∀ c ∈ s.toList, isLowerHex c = true) ∧
      ((sprintfHex (randRead rnd n.toNat)).length : Int) = 2 * n ∧
      sliceTo (sprintfHex (randRead rnd n.toNat)) n = some s := by
  have hlen := sprintfHex_length (randRead rnd n.toNat)
  rw [randRead_length] at hlen
  refine ⟨_, randomString_eq rnd n hn hmax, ?_, take_sprintfHex_hex _ _, ?_, ?_⟩
  · rw [take_sprintfHex_length _ _ (by rw [randRead_length])]
    omega
  · rw [hlen]
    omega
  · unfold sliceTo
    rw [if_pos]
    rw [hlen]
    omega

/-- C2, amended, at length 4 on the stream of bytes `0xab`. -/
theorem randomString_length_hex_witness :
    (0 : Int) ≤ 4 ∧ (4 : Int) ≤ (maxAlloc : Int) ∧
    ∃ s, randomString sampleRnd 4 = some s ∧ (s.length : Int) = 4 ∧
      (∀ c ∈ s.toList, isLowerHex c = true) ∧
      ((sprintfHex (randRead sampleRnd (4 : Int).toNat)).length : Int) = 2 * 4 ∧
      sliceTo (sprintfHex (randRead sampleRnd (4 : Int).toNat)) 4 = some s :=
  ⟨by decide, by decide, randomString_length_hex sampleRnd 4 (by decide) (by decide)⟩

/-! ## The job description -/

/-- C1: the container command of the built job is `/bin/bash -c S`, where `S`
chains, in this order, the backup, tar, transfer and cleanup stages with ` && `,
and every stage, both removals of the cleanup included, starts with the
debug-chroot invocation `oc debug node/N -- chroot /host`. -/
theorem createBackupPod_command (rnd : Nat → Fin 256) (N P I C : String) :
    ∃ job c, createBackupPod rnd N P I C = some job ∧
      job.Spec.Template.Spec.Containers = [c] ∧
      c.Command =
        ["/bin/bash", "-c",
          ("oc debug node/" ++ N ++ " -- chroot /host")
            ++ " /usr/local/bin/cluster-backup.sh /tmp/assets/backup"
            ++ (" && " ++ ("oc debug node/" ++ N ++ " -- chroot /host")
                  ++ " tar czf /tmp/etcd_backup.tar.gz /tmp/assets/backup")
            ++ (" && " ++ ("oc debug node/" ++ N ++ " -- chroot /host")
                  ++ " cat /tmp/etcd_backup.tar.gz > /backups/backup_$(date +%Y-%m-%d_%H-%M_%Z).db.tgz")
            ++ (" && " ++ ("oc debug node/" ++ N ++ " -- chroot /host")
                  ++ " rm -rf /tmp/assets/backup && "
                  ++ ("oc debug node/" ++ N ++ " -- chroot /host")
                  ++ " rm -f /tmp/etcd_backup.tar.gz")] := by
  obtain ⟨u, hu, -⟩ := randomString_four rnd
  unfold createBackupPod
  rw [hu]
  refine ⟨_, _, rfl, rfl, ?_⟩
  simp only [List.cons.injEq, true_and, and_true]
  apply String.ext
  simp only [String.data_append, List.append_assoc]
  rfl

/-- C3: the built job has a volume whose persistent-volume-claim reference is
the claim name `C`, unchanged, and the volume mount of the container has the
mount path `/backups` whatever the four inputs are. -/
theorem createBackupPod_claim_and_mountPath (rnd : Nat → Fin 256) (N P I C : String) :
    ∃ job c m v, createBackupPod rnd N P I C = some job ∧
      job.Spec.Template.Spec.Containers = [c] ∧
      c.VolumeMounts = [m] ∧ m.MountPath = "/backups" ∧
      job.Spec.Template.Spec.Volumes = [v] ∧
      v.VolumeSource.PersistentVolumeClaim = some { ClaimName := C } := by
  obtain ⟨u, hu, -⟩ := randomString_four rnd
  unfold createBackupPod
  rw [hu]
  exact ⟨_, _, _, _, rfl, rfl, rfl, rfl, rfl, rfl⟩

/-- C4: the node selector of the built job has exactly one entry, with key
`node-role.kubernetes.io/master` and the empty string as value; it is the same
for every node name. -/
theorem createBackupPod_nodeSelector (rnd : Nat → Fin 256) (N P I C : String) :
    ∃ job, createBackupPod rnd N P I C = some job ∧
      job.Spec.Template.Spec.NodeSelector = [("node-role.kubernetes.io/master", "")] ∧
      job.Spec.Template.Spec.NodeSelector.length = 1 ∧
      ∀ N2 : String, ∃ job2, createBackupPod rnd N2 P I C = some job2 ∧
        job2.Spec.Template.Spec.NodeSelector = job.Spec.Template.Spec.NodeSelector := by
  obtain ⟨u, hu, -⟩ := randomString_four rnd
  unfold createBackupPod
  rw [hu]
  exact ⟨_, rfl, rfl, rfl, fun _ => ⟨_, rfl, rfl⟩⟩

/-- C5: the built job is named `etcd-backup-` followed by exactly four
lower-case hexadecimal characters, its namespace is `P`, its pod template has
exactly one container, named like the job and running image `I`, its restart
policy is Never, and it has exactly one volume, named `etcd-backup-mount` and
bound to claim `C`. -/
theorem createBackupPod_shape (rnd : Nat → Fin 256) (N P I C : String) :
    ∃ job u c v, createBackupPod rnd N P I C = some job ∧
      job.ObjectMeta.Name = "etcd-backup-" ++ u ∧ u.length = 4 ∧
      (∀ ch ∈ u.toList, isLowerHex ch = true) ∧
      job.ObjectMeta.Namespace = P ∧
      job.Spec.Template.Spec.Containers = [c] ∧
      c.Name = job.ObjectMeta.Name ∧ c.Image = I ∧
      job.Spec.Template.Spec.RestartPolicy = RestartPolicy.RestartPolicyNever ∧
      job.Spec.Template.Spec.Volumes = [v] ∧
      v.Name = "etcd-backup-mount" ∧
      v.VolumeSource.PersistentVolumeClaim = some { ClaimName := C } := by
  obtain ⟨u, hu, hlen, hhex⟩ := randomString_four rnd
  unfold createBackupPod
  rw [hu]
  exact ⟨_, u, _, _, rfl, rfl, hlen, hhex, rfl, rfl, rfl, rfl, rfl, rfl, rfl, rfl⟩

/-- C10: the built job agrees with itself about where the backup lands.  The
single volume mount of the container names the single declared volume
(`etcd-backup-mount`, bound to claim `C`); the file the transfer stage redirects
into is the mount path followed by `/` and a file name; the directory that the
tar stage archives and the cleanup removes is the one the backup stage wrote to;
the archive that the transfer stage reads and the cleanup removes is the one the
tar stage created. -/
theorem createBackupPod_consistent (rnd : Nat → Fin 256) (N P I C : String) :
    ∃ job c m v, createBackupPod rnd N P I C = some job ∧
      job.Spec.Template.Spec.Containers = [c] ∧
      c.VolumeMounts = [m] ∧
      job.Spec.Template.Spec.Volumes = [v] ∧
      m.Name = v.Name ∧ v.Name = "etcd-backup-mount" ∧
      v.VolumeSource.PersistentVolumeClaim = some { ClaimName := C } ∧
      c.Command =
        ["/bin/bash", "-c",
          stagedPipeline ("oc debug node/" ++ N ++ " -- chroot /host")
            "/tmp/assets/backup" "/tmp/etcd_backup.tar.gz"
            (m.MountPath ++ "/" ++ "backup_$(date +%Y-%m-%d_%H-%M_%Z).db.tgz")] := by
  obtain ⟨u, hu, -⟩ := randomString_four rnd
  unfold createBackupPod
  rw [hu]
  refine ⟨_, _, _, _, rfl, rfl, rfl, rfl, rfl, rfl, rfl, ?_⟩
  simp only [List.cons.injEq, true_and, and_true, stagedPipeline]
  apply String.ext
  simp only [String.data_append, List.append_assoc]
  rfl

/-! ## The driver -/

/-- C6: when the client configuration is established and the node listing
returns an error, `main` prints that error, makes no job-creation call, and
returns normally. -/
theorem main_listNodes_error_returns (ns label field : String) (w : World)
    (config : Config) (client : Clientset) (err : Error)
    (hconfig : w.BuildConfigFromFlags ""
      "/home/stratus/temp/go_practice/k8s_practice/auth/kubeconfig" = .ok config)
    (hclient : w.NewForConfig config = .ok client)
    (hlist : client.listNodes "node-role.kubernetes.io/master=" = .error err) :
    (main ns label field w).trace =
        [Event.listNodes "node-role.kubernetes.io/master=", Event.println err] ∧
      (∀ p job, Event.createJob p job ∉ (main ns label field w).trace) ∧
      (main ns label field w).outcome = Outcome.returned := by
  have h : main ns label field w =
      ⟨[Event.listNodes "node-role.kubernetes.io/master=", Event.println err],
        Outcome.returned⟩ := by
    simp only [main, hconfig, hclient, hlist]
  rw [h]
  refine ⟨rfl, ?_, rfl⟩
  intro p job hmem
  simp at hmem

/-- C6, on a client whose node listing is refused. -/
theorem main_listNodes_error_returns_witness :
    (main "kube-system" "a=b" "c=d" (worldOf listFailsClient)).trace =
        [Event.listNodes "node-role.kubernetes.io/master=",
          Event.println "nodes is forbidden"] ∧
      (∀ p job, Event.createJob p job ∉
        (main "kube-system" "a=b" "c=d" (worldOf listFailsClient)).trace) ∧
      (main "kube-system" "a=b" "c=d" (worldOf listFailsClient)).outcome = Outcome.returned :=
  main_listNodes_error_returns "kube-system" "a=b" "c=d" (worldOf listFailsClient)
    ⟨"https://api.cluster:6443"⟩ listFailsClient "nodes is forbidden" rfl rfl rfl

/-- C7, evaluated where it fails: a listing that succeeds with zero items
passes the error check, and taking the name of the first node then panics with
an index out of range; no explicit failure is signalled and no job is submitted. -/
theorem main_empty_list_panics :
    main "" "" "" (worldOf noNodeClient) =
      ⟨[Event.listNodes "node-role.kubernetes.io/master="],
        Outcome.panicked (PanicValue.indexOutOfRange 0 0)⟩ := by
  rfl

/-- C8: when the listing succeeds with at least one node, the outcome of `main`
is decided by the job-creation call: an error makes `main` panic with that
error, which is not a normal return and differs from the outcome of every run
whose node listing failed; a success makes `main` return normally. -/
theorem main_createJob_outcome (ns label field : String) (w : World)
    (config : Config) (client : Clientset) (first : Node) (rest : List Node) (job : Job)
    (hconfig : w.BuildConfigFromFlags ""
      "/home/stratus/temp/go_practice/k8s_practice/auth/kubeconfig" = .ok config)
    (hclient : w.NewForConfig config = .ok client)
    (hlist : client.listNodes "node-role.kubernetes.io/master=" = .ok ⟨first :: rest⟩)
    (hjob : createBackupPod w.rnd first.Name "ocp-etcd-backup"
      "registry.redhat.io/openshift4/ose-cli:v4.8" "etcd-backup-pvc" = some job) :
    (∀ err1, client.createJob "ocp-etcd-backup" job = .error err1 →
        (main ns label field w).outcome = Outcome.panicked (PanicValue.error err1) ∧
        (main ns label field w).outcome ≠ Outcome.returned ∧
        ∀ (w2 : World) (config2 : Config) (client2 : Clientset) (err : Error),
          w2.BuildConfigFromFlags ""
            "/home/stratus/temp/go_practice/k8s_practice/auth/kubeconfig" = .ok config2 →
          w2.NewForConfig config2 = .ok client2 →
          client2.listNodes "node-role.kubernetes.io/master=" = .error err →
          (main ns label field w2).outcome ≠ (main ns label field w).outcome) ∧
      (∀ created, client.createJob "ocp-etcd-backup" job = .ok created →
        (main ns label field w).outcome = Outcome.returned) := by
  constructor
  · intro err1 hcreate
    have h : (main ns label field w).outcome = Outcome.panicked (PanicValue.error err1) := by
      simp only [main, hconfig, hclient, hlist, hjob, hcreate]
    refine ⟨h, ?_, ?_⟩
    · rw [h]
      exact Outcome.noConfusion
    · intro w2 config2 client2 err h1 h2 h3
      have h4 : (main ns label field w2).outcome = Outcome.returned := by
        simp only [main, h1, h2, h3]
      rw [h, h4]
      exact Outcome.noConfusion
  · intro created hcreate
    simp only [main, hconfig, hclient, hlist, hjob, hcreate]

set_option maxRecDepth 100000 in
/-- The builder, run for node `master-0` on the stream of bytes `0xab` with the
constants of `main`, yields `sampleJob`. -/
theorem createBackupPod_sampleJob :
    createBackupPod sampleRnd "master-0" "ocp-etcd-backup"
      "registry.redhat.io/openshift4/ose-cli:v4.8" "etcd-backup-pvc" = some sampleJob := by
  rfl

/-- C8, on a client that rejects the job and on a client that accepts it. -/
theorem main_createJob_outcome_witness :
    (main "" "" "" (worldOf createFailsClient)).outcome =
        Outcome.panicked (PanicValue.error "jobs.batch is forbidden") ∧
      (main "" "" "" (worldOf acceptingClient)).outcome = Outcome.returned :=
  ⟨((main_createJob_outcome "" "" "" (worldOf createFailsClient)
      ⟨"https://api.cluster:6443"⟩ createFailsClient ⟨"master-0"⟩ [⟨"master-1"⟩] sampleJob
      rfl rfl rfl createBackupPod_sampleJob).1 "jobs.batch is forbidden" rfl).1,
   (main_createJob_outcome "" "" "" (worldOf acceptingClient)
      ⟨"https://api.cluster:6443"⟩ acceptingClient ⟨"master-0"⟩ [⟨"master-1"⟩] sampleJob
      rfl rfl rfl createBackupPod_sampleJob).2 sampleJob rfl⟩

/-- C9: when the listing succeeds with a non-empty item list, then for every
value of the three flags `main` lists the nodes with the label selector
`node-role.kubernetes.io/master=` and makes exactly one job-creation call, in
namespace `ocp-etcd-backup`, with the job that `createBackupPod` builds from the
name of the first listed node and the three constants; the job's own namespace
is the namespace it is submitted to, and neither the other items nor the flags
appear in the result. -/
theorem main_submits_first_node_job (ns label field : String) (w : World)
    (config : Config) (client : Clientset) (first : Node) (rest : List Node)
    (hconfig : w.BuildConfigFromFlags ""
      "/home/stratus/temp/go_practice/k8s_practice/auth/kubeconfig" = .ok config)
    (hclient : w.NewForConfig config = .ok client)
    (hlist : client.listNodes "node-role.kubernetes.io/master=" = .ok ⟨first :: rest⟩) :
    ∃ job, createBackupPod w.rnd first.Name "ocp-etcd-backup"
        "registry.redhat.io/openshift4/ose-cli:v4.8" "etcd-backup-pvc" = some job ∧
      (main ns label field w).trace =
        [Event.listNodes "node-role.kubernetes.io/master=",
          Event.createJob "ocp-etcd-backup" job] ∧
      job.ObjectMeta.Namespace = "ocp-etcd-backup" ∧
      main ns label field w = main "" "" "" w := by
  obtain ⟨job, hjob, hns⟩ := createBackupPod_total w.rnd first.Name "ocp-etcd-backup"
    "registry.redhat.io/openshift4/ose-cli:v4.8" "etcd-backup-pvc"
  refine ⟨job, hjob, ?_, hns, rfl⟩
  cases hcreate : client.createJob "ocp-etcd-backup" job <;>
    simp only [main, hconfig, hclient, hlist, hjob, hcreate]

/-- C9, on a client listing `master-0` then `master-1`, with all three flags set. -/
theorem main_submits_first_node_job_witness :
    ∃ job, createBackupPod (worldOf acceptingClient).rnd "master-0" "ocp-etcd-backup"
        "registry.redhat.io/openshift4/ose-cli:v4.8" "etcd-backup-pvc" = some job ∧
      (main "default" "role=worker" "metadata.name=x" (worldOf acceptingClient)).trace =
        [Event.listNodes "node-role.kubernetes.io/master=",
          Event.createJob "ocp-etcd-backup" job] ∧
      job.ObjectMeta.Namespace = "ocp-etcd-backup" ∧
      main "default" "role=worker" "metadata.name=x" (worldOf acceptingClient) =
        main "" "" "" (worldOf acceptingClient) :=
  main_submits_first_node_job "default" "role=worker" "metadata.name=x"
    (worldOf acceptingClient) ⟨"https://api.cluster:6443"⟩ acceptingClient
    ⟨"master-0"⟩ [⟨"master-1"⟩] rfl rfl rfl

end EtcdBackup
